import Mathlib

/-!
Verification of the uno-scores bot (`src/bot.py`).

The program is a Telegram bot keeping a two-player score in a CSV file
(`scores.csv`) stored in a GitHub repository.  The remote store and the
messaging layer are modelled as environments; every handler is embedded as a
function producing the list of externally visible effects (remote fetches,
conditional updates, sent messages, in-place edits, pin attempts) in the
order the Python code performs them.

String primitives are re-implemented over `List Char` with structural
recursion so that every definition evaluates inside the kernel.  They model
the CPython semantics actually exercised by the program: `str.strip()`
(both ends), `str.split(sep)` for a one-character separator, `str.replace`
for a one-character pattern, `int(...)` on optionally signed decimal
numerals (Unicode digit classes and underscore grouping are not modelled:
the program only ever feeds ASCII material to them), and `str(int)`.
-/

/-- Whitespace characters removed by Python `str.strip()`. -/
def isPySpace (c : Char) : Bool :=
  c = ' ' || c = '\t' || c = '\n' || c = '\r' || c = '\x0b' || c = '\x0c'

/-- Python `str.strip()`: removes leading AND trailing whitespace. -/
def pyStrip (s : String) : String :=
  String.mk (((s.data.dropWhile isPySpace).reverse.dropWhile isPySpace).reverse)

/-- Trailing-whitespace-only trim.  Modelled from the spec:
`appendLine` is described there as computing
`trimTrailingWhitespace(content) + "\n" + newLine`; this definition follows
those words so it can be compared with what the code (`pyStrip`) does. -/
def trimTrailingWS (s : String) : String :=
  String.mk ((s.data.reverse.dropWhile isPySpace).reverse)

/-- Core of Python `str.split(sep)` for a one-character separator,
on character lists.  Never returns `[]`; empty input gives `[[]]`. -/
def splitChar (c : Char) : List Char → List (List Char)
  | [] => [[]]
  | a :: rest =>
    match splitChar c rest with
    | [] => if a = c then [[], []] else [[a]]
    | h :: t => if a = c then [] :: h :: t else (a :: h) :: t

/-- Python `s.split(c)` for a single-character separator `c`. -/
def pySplit (s : String) (c : Char) : List String :=
  (splitChar c s.data).map String.mk

/-- Replace every occurrence of the character `c` by the list `r`. -/
def replCharAux (c : Char) (r : List Char) : List Char → List Char
  | [] => []
  | a :: rest => if a = c then r ++ replCharAux c r rest else a :: replCharAux c r rest

/-- Python `s.replace(c, r)` for a one-character pattern `c`. -/
def pyReplace (s : String) (c : Char) (r : String) : String :=
  String.mk (replCharAux c r.data s.data)

/-- The decimal digit character for `m` (callers pass `m < 10`). -/
def digitCh : Nat → Char
  | 0 => '0' | 1 => '1' | 2 => '2' | 3 => '3' | 4 => '4'
  | 5 => '5' | 6 => '6' | 7 => '7' | 8 => '8' | _ => '9'

/-- Decimal digits of `n`, most significant first, with explicit fuel so the
recursion is structural (fuel `n+1` always suffices). -/
def natStrAux : Nat → Nat → List Char
  | 0, _ => []
  | fuel+1, n =>
    if n < 10 then [digitCh n] else natStrAux fuel (n / 10) ++ [digitCh (n % 10)]

/-- Python `str(n)` for a natural number. -/
def natStr (n : Nat) : String := String.mk (natStrAux (n+1) n)

/-- Python `str(x)` for an integer. -/
def intStr : Int → String
  | .ofNat n => natStr n
  | .negSucc n => "-" ++ natStr (n+1)

/-- Digit run accepted by Python `int(...)` (ASCII digits, nonempty). -/
def digitsToNat : List Char → Option Nat
  | [] => none
  | cs =>
    if cs.all Char.isDigit then
      some (cs.foldl (fun acc c => acc * 10 + (c.toNat - 48)) 0)
    else none

/-- Python `int(s)`: strips surrounding whitespace, accepts an optional sign
followed by a nonempty ASCII digit run; anything else raises `ValueError`
(modelled as `none`). -/
def pyInt (s : String) : Option Int :=
  match (pyStrip s).data with
  | '-' :: rest => (digitsToNat rest).map (fun n => -(n : Int))
  | '+' :: rest => (digitsToNat rest).map (fun n => (n : Int))
  | cs => (digitsToNat cs).map (fun n => (n : Int))

/-- In the bot's MarkdownV2 output every backslash escapes the following
character, so the text a chat user reads is the message with the
backslashes removed. -/
def renderMdV2 (s : String) : String := String.mk (s.data.filter (fun c => c != '\\'))

/-- `strContains s t`: the text `t` occurs contiguously inside `s`. -/
def strContains (s t : String) : Prop := List.IsInfix t.data s.data

instance (s t : String) : Decidable (strContains s t) :=
  List.decidableInfix t.data s.data

set_option maxRecDepth 100000

/-- Decidable equality of `Except` results, used to evaluate the embedded
functions on concrete inputs. -/
instance {ε α : Type} [DecidableEq ε] [DecidableEq α] : DecidableEq (Except ε α) := by
  intro a b
  cases a <;> cases b
  case error.error e f => exact decidable_of_iff (e = f) (by simp)
  case ok.ok x y => exact decidable_of_iff (x = y) (by simp)
  all_goals exact isFalse (by simp)

/-! ## Remote store and messaging model -/

/-- Python exceptions observed by `update_csv_file`'s handlers: a
`GithubException` (carrying its `e.data['message']` text) or any other
exception (carrying its `str(e)` text). -/
inductive PyExn where
  | github (msg : String)
  | other (msg : String)
deriving DecidableEq

/-- One version of the remote file: its decoded content and its revision
token (the Git blob SHA, opaque here). -/
structure Blob where
  content : String
  sha : Nat
deriving DecidableEq

/-- Externally visible effects of one command invocation, in program order:
`fetchEv` a successful `repo.get_contents` (content and revision observed),
`updateEv` a `repo.update_file` request (new content, commit message,
conditioning revision), `sendMsg` a `reply_text`, `editMsg` an `edit_text`
of the message with the given id (ids count the sends of the invocation,
so the processing placeholder is message 0), `pinMsg` a pin attempt. -/
inductive Effect where
  | fetchEv (content : String) (sha : Nat)
  | updateEv (newContent commitMsg : String) (sha : Nat)
  | sendMsg (text : String)
  | editMsg (msgId : Nat) (text : String)
  | pinMsg (msgId : Nat)
deriving DecidableEq

/-- The remote repository collaborator: `fetch k` is the outcome of the
`k`-th `repo.get_contents` call of the invocation, `update newContent sha`
the outcome of the conditional `repo.update_file` request. -/
structure RemoteEnv where
  fetch : Nat → Except PyExn Blob
  update : String → Nat → Except PyExn Unit

/-- Process configuration (the environment variables the handlers read). -/
structure Config where
  authorizedChatId : String
  playerAId : String
  playerIId : String

/-- Wall-clock date and time captured by `datetime.now()`, already formatted
as `%Y-%m-%d` and `%H:%M`. -/
structure Clock where
  dateStr : String
  timeStr : String

/-- An incoming Telegram update: whether it has a message, the source chat
id (as a string, as the code compares it), the sender id, and the command
arguments. -/
structure Msg where
  hasMessage : Bool
  chatId : String
  userId : String
  args : List String

/-- Error text produced by `update_csv_file`'s two exception handlers. -/
def excMsg : PyExn → String
  | .github m => "GitHub API Error: " ++ m
  | .other m => m

/-- Python `str(e)` for an exception, as interpolated by `my_score_command`
and `score_stats_command`. -/
def pyStr : PyExn → String
  | .github m => m
  | .other m => m

/-! ## The program (`src/bot.py`) -/

/-- Pure part of `get_latest_score` (bot.py lines 39-47): strip the decoded
content, split into lines, default to `(0, 0)` when fewer than two lines,
otherwise unpack the last line into exactly four comma-separated fields and
parse fields 3 and 4 as integers.  A field count other than four or an
unparseable field raises (modelled as `.error`). -/
def parseLatestScore (content : String) : Except PyExn (Int × Int) :=
  let current_content := pyStrip content
  let lines := pySplit current_content '\n'
  if lines.length < 2 then .ok (0, 0)
  else
    match pySplit (lines.getLastD "") ',' with
    | [_, _, sa, si] =>
      match pyInt sa, pyInt si with
      | some a, some i => .ok (a, i)
      | _, _ => .error (.other "invalid literal for int() with base 10")
    | _ => .error (.other "values to unpack (expected 4)")

/-- `get_latest_score` (bot.py lines 34-47): performs one fetch and parses
the result; returns the outcome together with the remote events observed. -/
def get_latest_score (fr : Except PyExn Blob) : Except PyExn (Int × Int) × List Effect :=
  match fr with
  | .error e => (.error e, [])
  | .ok contents => (parseLatestScore contents.content, [.fetchEv contents.content contents.sha])

/-- `update_csv_file` (bot.py lines 49-71): fetches the file itself (the
`fetchIdx`-th fetch of the invocation), strips the content, appends the new
line after a newline, and submits an update conditioned on the fetched
revision, with commit message built from fields 2 and 3 of the new line
(an out-of-range index raises `IndexError`, caught by the blanket handler
before any update request is made).  Every exception becomes
`(false, some message)`; success is `(true, none)`. -/
def update_csv_file (env : RemoteEnv) (fetchIdx : Nat) (new_csv_line : String) :
    (Bool × Option String) × List Effect :=
  match env.fetch fetchIdx with
  | .error e => ((false, some (excMsg e)), [])
  | .ok contents =>
    let current_content := pyStrip contents.content
    let new_content := current_content ++ "\n" ++ new_csv_line
    let parts := pySplit new_csv_line ','
    if 3 < parts.length then
      let commit_message := "Update score: " ++ parts.getD 2 "" ++ "-" ++ parts.getD 3 ""
      match env.update new_content contents.sha with
      | .ok _ =>
        ((true, none),
          [.fetchEv contents.content contents.sha,
           .updateEv new_content commit_message contents.sha])
      | .error e =>
        ((false, some (excMsg e)),
          [.fetchEv contents.content contents.sha,
           .updateEv new_content commit_message contents.sha])
    else
      ((false, some "list index out of range"),
        [.fetchEv contents.content contents.sha])

/-- A CSV score line `date,time,score_a,score_i` (bot.py lines 91 and 126). -/
def csvLine (d t sa si : String) : String := d ++ "," ++ t ++ "," ++ sa ++ "," ++ si

/-- Body of the regex `^\d+-\d+$`: exactly two nonempty ASCII digit runs
joined by one dash. -/
def scoreReCore (s : String) : Bool :=
  match pySplit s '-' with
  | [a, b] =>
    !a.data.isEmpty && !b.data.isEmpty && a.data.all Char.isDigit && b.data.all Char.isDigit
  | _ => false

/-- Python `re.match(r over ^\d+-\d+$)` as a full-string test; Python's `$`
also matches just before one trailing newline, so that case is included. -/
def matchScoreRe (s : String) : Bool :=
  scoreReCore s || (s.data.getLastD ' ' == '\n' && scoreReCore (String.mk s.data.dropLast))

/-- The increment (bot.py lines 122-123): add one to exactly the resolved
player's component, leaving the other unchanged. -/
def applyIncrement (cur : Int × Int) (player : Char) : Int × Int :=
  (cur.1 + (if player = 'A' then 1 else 0), cur.2 + (if player = 'I' then 1 else 0))

/-- Sender-identity resolution (bot.py line 113): the `PLAYER_A_ID` test is
made first, then `PLAYER_I_ID`, else unregistered. -/
def resolvePlayer (cfg : Config) (userId : String) : Option Char :=
  if userId = cfg.playerAId then some 'A'
  else if userId = cfg.playerIId then some 'I'
  else none

/-- `set_score_command` (bot.py lines 74-106). -/
def set_score_command (cfg : Config) (env : RemoteEnv) (clk : Clock) (m : Msg) : List Effect :=
  if m.hasMessage = false ∨ m.chatId ≠ cfg.authorizedChatId then []
  else if m.args.isEmpty then [.sendMsg "Usage: `/setscore 142-91`"]
  else
    let score_text := m.args.getD 0 ""
    if matchScoreRe score_text = false then [.sendMsg "Invalid format\\. Use `142-91`\\."]
    else
      match pySplit score_text '-' with
      | [score_a, score_i] =>
        let new_csv_line := csvLine clk.dateStr clk.timeStr score_a score_i
        let res := update_csv_file env 0 new_csv_line
        match res.1 with
        | (true, _) =>
          let safe_score_text := pyReplace score_text '-' "\\-"
          let confirmation_text := "✅ Score set to *" ++ safe_score_text ++ "*\\!"
          .sendMsg "Updating score on GitHub..." :: res.2
            ++ [.editMsg 0 confirmation_text, .pinMsg 0]
        | (false, error_message) =>
          let error_text :=
            "❌ Failed to set score\\.\n*Error:* `" ++ error_message.getD "None" ++ "`"
          .sendMsg "Updating score on GitHub..." :: res.2 ++ [.editMsg 0 error_text]
      | _ => []

/-- `my_score_command` (bot.py lines 108-143).  Note the two distinct
fetches: `get_latest_score` performs fetch 0 (from which the score is
derived) and `update_csv_file` performs its own fetch 1 (whose content and
revision the update actually uses). -/
def my_score_command (cfg : Config) (env : RemoteEnv) (clk : Clock) (m : Msg) : List Effect :=
  if m.hasMessage = false ∨ m.chatId ≠ cfg.authorizedChatId then []
  else
    match resolvePlayer cfg m.userId with
    | none => [.sendMsg "You are not a registered player\\."]
    | some player =>
      let processing :=
        Effect.sendMsg ("Fetching last score for Player " ++ String.mk [player] ++ "...")
      let fetched := get_latest_score (env.fetch 0)
      match fetched.1 with
      | .error e =>
        processing :: fetched.2 ++ [.editMsg 0 ("An error occurred: `" ++ pyStr e ++ "`")]
      | .ok cur =>
        let incremented := applyIncrement cur player
        let new_csv_line :=
          csvLine clk.dateStr clk.timeStr (intStr incremented.1) (intStr incremented.2)
        let res := update_csv_file env 1 new_csv_line
        match res.1 with
        | (true, _) =>
          let safe_score_text := intStr incremented.1 ++ "\\-" ++ intStr incremented.2
          let confirmation_text := "✅ Score is now *" ++ safe_score_text ++ "*\\!"
          processing :: fetched.2 ++ [.editMsg 0 "Incrementing score on GitHub..."] ++ res.2
            ++ [.editMsg 0 confirmation_text, .pinMsg 0]
        | (false, error_message) =>
          let error_text :=
            "❌ Failed to increment score\\.\n*Error:* `" ++ error_message.getD "None" ++ "`"
          processing :: fetched.2 ++ [.editMsg 0 "Incrementing score on GitHub..."] ++ res.2
            ++ [.editMsg 0 error_text]

/-- Round `num/den` (for `den > 0`) to the nearest integer, ties to even:
the rounding CPython applies when formatting these quotients. -/
def roundHalfEven (num den : Int) : Int :=
  let q := num.fdiv den
  let r := num.fmod den
  if 2 * r < den then q
  else if den < 2 * r then q + 1
  else if q % 2 = 0 then q else q + 1

/-- Left-pad a digit list with zeros to width `k`. -/
def padZeros (s : List Char) (k : Nat) : List Char :=
  List.replicate (k - s.length) '0' ++ s

/-- Python `f-string` fixed-point formatting of the quotient `num/den` with
`k` fractional digits.  Modelling note: the source formats the result of
float division; this definition rounds the exact rational instead, which
coincides on every value the claims exercise (float rounding can differ
only within double-precision error of a decimal tie). -/
def formatFixed (num den : Int) (k : Nat) : String :=
  let scaled := roundHalfEven (num * (10 : Int) ^ k) den
  let sign := if scaled < 0 then "-" else ""
  let n := scaled.natAbs
  if k = 0 then sign ++ natStr n
  else sign ++ natStr (n / 10 ^ k) ++ "." ++ String.mk (padZeros (natStrAux (n % 10 ^ k + 1) (n % 10 ^ k)) k)

/-- The statistics message body (bot.py lines 158-168) for a score pair:
ratio A:I to two decimals (or the infinity marker when `score_i` is not
positive), and each side's percentage point-share to one decimal, all with
the dot escaped for MarkdownV2. -/
def statsText (score_a score_i : Int) : String :=
  let total_score := score_a + score_i
  let ratio_str :=
    if 0 < score_i then pyReplace (formatFixed score_a score_i 2) '.' "\\." ++ ":1" else "∞"
  let percent_a := pyReplace (formatFixed (score_a * 100) total_score 1) '.' "\\." ++ "%"
  let percent_i := pyReplace (formatFixed (score_i * 100) total_score 1) '.' "\\." ++ "%"
  "📊 *Current Score Statistics*\n\n🔹 *Score:* " ++ intStr score_a ++ " \\- " ++ intStr score_i
    ++ "\n🔸 *Ratio \\(A/I\\):* " ++ ratio_str
    ++ "\n📈 *Point Share:*\n    \\- Player A: " ++ percent_a
    ++ "\n    \\- Player I: " ++ percent_i

/-- `score_stats_command` (bot.py lines 145-173).  It performs its remote
fetch directly and replies with a fresh message; no placeholder is sent and
nothing is edited. -/
def score_stats_command (cfg : Config) (env : RemoteEnv) (m : Msg) : List Effect :=
  if m.hasMessage = false ∨ m.chatId ≠ cfg.authorizedChatId then []
  else
    let fetched := get_latest_score (env.fetch 0)
    match fetched.1 with
    | .error e =>
      fetched.2 ++
        [.sendMsg ("An error occurred while fetching stats: `"
          ++ pyReplace (pyStr e) '.' "\\." ++ "`")]
    | .ok cur =>
      if cur.1 + cur.2 = 0 then fetched.2 ++ [.sendMsg "No scores recorded yet\\."]
      else fetched.2 ++ [.sendMsg (statsText cur.1 cur.2)]

/-! ## Trace observations -/

/-- Revisions observed by the fetches of a trace, in order. -/
def fetchShas (tr : List Effect) : List Nat :=
  tr.filterMap fun e => match e with | .fetchEv _ s => some s | _ => none

/-- Revisions each update request of a trace was conditioned on, in order. -/
def updateShas (tr : List Effect) : List Nat :=
  tr.filterMap fun e => match e with | .updateEv _ _ s => some s | _ => none

/-- Contents submitted by the update requests of a trace, in order. -/
def updateContents (tr : List Effect) : List String :=
  tr.filterMap fun e => match e with | .updateEv c _ _ => some c | _ => none

/-- Remote-store events. -/
def isRemote : Effect → Bool
  | .fetchEv _ _ => true
  | .updateEv _ _ _ => true
  | _ => false

/-- Outgoing chat messages (new sends). -/
def isSend : Effect → Bool
  | .sendMsg _ => true
  | _ => false

/-- Chat events carrying user-visible text (sends and edits). -/
def isMsgEvent : Effect → Bool
  | .sendMsg _ => true
  | .editMsg _ _ => true
  | _ => false

/-- Number of messages sent (not edited) in a trace. -/
def sendCount (tr : List Effect) : Nat := (tr.filter isSend).length

/-- True when the first remote event of the trace, if any, comes after some
sent message. -/
def remotePrecededBySend : List Effect → Bool
  | [] => true
  | e :: rest => if isRemote e then false else if isSend e then true else remotePrecededBySend rest

/-- The last user-visible chat event of a trace. -/
def lastMsgEvent (tr : List Effect) : Option Effect := (tr.filter isMsgEvent).getLast?

/-- Texts of the edits of a trace, in order. -/
def editTexts (tr : List Effect) : List String :=
  tr.filterMap fun e => match e with | .editMsg _ t => some t | _ => none

/-- Claim C1's revision-token lifecycle, as a checkable trace property:
every fetched token is consumed by exactly one update, and the update is
conditioned on the token of the fetch that supplied the score (the first
fetch of the invocation). -/
def revisionLifecycleOK (tr : List Effect) : Bool :=
  (fetchShas tr).all (fun s => (updateShas tr).count s == 1) &&
  (match (fetchShas tr).head? with
   | some s => updateShas tr == [s]
   | none => true)

/-- Claim C5's messaging protocol, as a checkable trace property: if the
trace touches the remote store at all, then a message is sent before the
first remote event, exactly one message is ever sent, and the last
user-visible chat event is an edit. -/
def placeholderProtocolOK (tr : List Effect) : Bool :=
  !(tr.any isRemote) ||
  (remotePrecededBySend tr && sendCount tr == 1 &&
    (match lastMsgEvent tr with | some (.editMsg _ _) => true | _ => false))

/-! ## Concrete fixtures -/

/-- A remote store that serves the same blob on every fetch and accepts
every update. -/
def envSame (b : Blob) : RemoteEnv := ⟨fun _ => .ok b, fun _ _ => .ok ()⟩

/-- A remote store whose first fetch and later fetches serve different
blobs (the file changed between the two fetches of an increment), and that
accepts every update. -/
def envTwo (b0 b1 : Blob) : RemoteEnv :=
  ⟨fun k => if k = 0 then .ok b0 else .ok b1, fun _ _ => .ok ()⟩

def cfg0 : Config := ⟨"chat1", "alice", "ivan"⟩

def clk0 : Clock := ⟨"2025-01-02", "03:04"⟩

def msgAlice : Msg := ⟨true, "chat1", "alice", []⟩

def msgIvan : Msg := ⟨true, "chat1", "ivan", []⟩

def msgWrongChat : Msg := ⟨true, "chat2", "alice", ["142-91"]⟩

def msgSet1 : Msg := ⟨true, "chat1", "alice", ["142-91"]⟩

def msgSet2 : Msg := ⟨true, "chat1", "alice", ["142-91", "junk"]⟩

def blobOneLine : Blob := ⟨"date,time,5,3", 5⟩

def blobTwoLine : Blob := ⟨"header\ndate,time,5,3", 6⟩

def blobLead : Blob := ⟨"  x", 7⟩

def blobHdr : Blob := ⟨"h\nd,t,1,2", 9⟩

def blob10 : Blob := ⟨"h\nd,t,5,3", 10⟩

def blob20 : Blob := ⟨"h\nd,t,9,9", 20⟩

def blobStats : Blob := ⟨"h\nd,t,7,3", 11⟩

def blobEmpty : Blob := ⟨"", 1⟩

def blobInf : Blob := ⟨"h\nd,t,4,0", 2⟩

def blobWit : Blob := ⟨" x ", 3⟩


/-! ## Helper lemmas -/

theorem strMk_data (s : String) : String.mk s.data = s := rfl

theorem splitChar_ne_nil (c : Char) (l : List Char) : splitChar c l ≠ [] := by
  induction l with
  | nil => simp [splitChar]
  | cons a as ih =>
    cases h : splitChar c as with
    | nil => exact absurd h ih
    | cons hh tt => simp [splitChar, h]; split <;> simp

theorem splitChar_append (c : Char) (xs ys : List Char) (h : List Char)
    (t : List (List Char)) (hx : c ∉ xs) (hy : splitChar c ys = h :: t) :
    splitChar c (xs ++ ys) = (xs ++ h) :: t := by
  induction xs with
  | nil => simpa using hy
  | cons a as ih =>
    have ha : ¬ a = c := by rintro rfl; exact hx (List.mem_cons_self a as)
    have hx2 : c ∉ as := fun hm => hx (List.mem_cons_of_mem a hm)
    simp [splitChar, ih hx2, ha]

theorem splitChar_of_not_mem (c : Char) (xs : List Char) (hx : c ∉ xs) :
    splitChar c xs = [xs] := by
  have h := splitChar_append c xs [] [] [] hx rfl
  simpa using h

theorem splitChar_cons_self (c : Char) (ys : List Char) :
    splitChar c (c :: ys) = [] :: splitChar c ys := by
  cases h : splitChar c ys with
  | nil => exact absurd h (splitChar_ne_nil c ys)
  | cons hh tt => simp [splitChar, h]

theorem pySplit_csvLine (d t sa si : String)
    (hd : ',' ∉ d.data) (ht : ',' ∉ t.data) (hsa : ',' ∉ sa.data) (hsi : ',' ∉ si.data) :
    pySplit (csvLine d t sa si) ',' = [d, t, sa, si] := by
  have e4 : splitChar ',' si.data = [si.data] := splitChar_of_not_mem _ _ hsi
  have e3 : splitChar ',' (sa.data ++ (',' :: si.data)) = [sa.data, si.data] := by
    have h := splitChar_append ',' sa.data (',' :: si.data) [] [si.data] hsa
      (by rw [splitChar_cons_self, e4])
    simpa using h
  have e2 : splitChar ',' (t.data ++ (',' :: (sa.data ++ (',' :: si.data)))) =
      [t.data, sa.data, si.data] := by
    have h := splitChar_append ',' t.data (',' :: (sa.data ++ (',' :: si.data)))
      [] [sa.data, si.data] ht (by rw [splitChar_cons_self, e3])
    simpa using h
  have e1 : splitChar ','
      (d.data ++ (',' :: (t.data ++ (',' :: (sa.data ++ (',' :: si.data)))))) =
      [d.data, t.data, sa.data, si.data] := by
    have h := splitChar_append ','
      d.data (',' :: (t.data ++ (',' :: (sa.data ++ (',' :: si.data)))))
      [] [t.data, sa.data, si.data] hd (by rw [splitChar_cons_self, e2])
    simpa using h
  have hdata : (csvLine d t sa si).data =
      d.data ++ (',' :: (t.data ++ (',' :: (sa.data ++ (',' :: si.data))))) := by
    simp [csvLine, String.data_append]
  unfold pySplit
  rw [hdata, e1]
  simp [strMk_data]

theorem digitCh_ne_comma (m : Nat) : digitCh m ≠ ',' := by
  unfold digitCh; split <;> decide

theorem comma_not_mem_natStrAux (fuel n : Nat) : ',' ∉ natStrAux fuel n := by
  induction fuel generalizing n with
  | zero => simp [natStrAux]
  | succ f ih =>
    unfold natStrAux
    split
    · simp
      exact fun e => digitCh_ne_comma n e.symm
    · intro hmem
      rcases List.mem_append.mp hmem with h1 | h2
      · exact ih (n / 10) h1
      · simp at h2
        exact digitCh_ne_comma (n % 10) h2.symm

theorem comma_not_mem_intStr (x : Int) : ',' ∉ (intStr x).data := by
  cases x with
  | ofNat n => exact comma_not_mem_natStrAux (n+1) n
  | negSucc n =>
    show ',' ∉ ("-" ++ natStr (n+1)).data
    rw [String.data_append]
    intro hmem
    rcases List.mem_append.mp hmem with h1 | h2
    · simp at h1
    · exact comma_not_mem_natStrAux (n+2) (n+1) h2

theorem update_trace_remote (env : RemoteEnv) (k : Nat) (line : String) :
    ∀ e ∈ (update_csv_file env k line).2, isRemote e = true := by
  intro e he
  cases hf : env.fetch k with
  | error f => simp only [update_csv_file, hf] at he; simp at he
  | ok b =>
    simp only [update_csv_file, hf] at he
    split at he
    · split at he <;> (simp at he; rcases he with h | h <;> subst h <;> rfl)
    · simp at he; subst he; rfl

theorem send_false_of_remote (e : Effect) (h : isRemote e = true) : isSend e = false := by
  cases e <;> simp_all [isRemote, isSend]

theorem msgEvent_false_of_remote (e : Effect) (h : isRemote e = true) :
    isMsgEvent e = false := by
  cases e <;> simp_all [isRemote, isMsgEvent]

theorem send_false_of_not_msgEvent (e : Effect) (h : isMsgEvent e = false) :
    isSend e = false := by
  cases e <;> simp_all [isMsgEvent, isSend]

theorem getLast_cons_append_singleton {α : Type} (a x : α) (l : List α) :
    (a :: (l ++ [x])).getLast? = some x := by
  rw [show a :: (l ++ [x]) = (a :: l) ++ [x] by simp]
  exact List.getLast?_concat _

theorem protocol_shape (t0 : String) (mid : List Effect) (eid : Nat) (et : String)
    (tail : List Effect)
    (hmid : ∀ e ∈ mid, isSend e = false)
    (htail : ∀ e ∈ tail, isMsgEvent e = false) :
    placeholderProtocolOK (.sendMsg t0 :: (mid ++ (.editMsg eid et :: tail))) = true := by
  have h1 : remotePrecededBySend (.sendMsg t0 :: (mid ++ (.editMsg eid et :: tail))) = true := by
    unfold remotePrecededBySend
    simp [isRemote, isSend]
  have hmidf : mid.filter isSend = [] := List.filter_eq_nil_iff.mpr (by
    intro e he; simp [hmid e he])
  have htailf : tail.filter isSend = [] := List.filter_eq_nil_iff.mpr (by
    intro e he; simp [send_false_of_not_msgEvent e (htail e he)])
  have htailm : tail.filter isMsgEvent = [] := List.filter_eq_nil_iff.mpr (by
    intro e he; simp [htail e he])
  have h2 : sendCount (.sendMsg t0 :: (mid ++ (.editMsg eid et :: tail))) = 1 := by
    unfold sendCount
    simp [List.filter_cons, List.filter_append, hmidf, htailf, isSend]
  have h3 : lastMsgEvent (.sendMsg t0 :: (mid ++ (.editMsg eid et :: tail))) =
      some (.editMsg eid et) := by
    unfold lastMsgEvent
    simp only [List.filter_cons, List.filter_append, htailm, isMsgEvent]
    exact getLast_cons_append_singleton _ _ _
  unfold placeholderProtocolOK
  rw [h1, h2, h3]
  simp

/-! ## Claim theorems -/

/-- Claim C6: for every valid ledger whose stripped content has at least
two lines, `get_latest_score` returns exactly the pair of integers parsed
from the last line's third and fourth comma-separated fields; for an empty
or header-only ledger (fewer than two lines), it returns `(0, 0)`. -/
theorem claim6_current_score (content : String) (sha : Nat) :
    (∀ f1 f2 f3 f4 : String, ∀ a i : Int,
      2 ≤ (pySplit (pyStrip content) '\n').length →
      pySplit ((pySplit (pyStrip content) '\n').getLastD "") ',' = [f1, f2, f3, f4] →
      pyInt f3 = some a → pyInt f4 = some i →
      (get_latest_score (.ok ⟨content, sha⟩)).1 = .ok (a, i)) ∧
    ((pySplit (pyStrip content) '\n').length < 2 →
      (get_latest_score (.ok ⟨content, sha⟩)).1 = .ok (0, 0)) := by
  constructor
  · intro f1 f2 f3 f4 a i h2 hsplit ha hi
    simp only [get_latest_score, parseLatestScore]
    rw [if_neg (by omega)]
    rw [hsplit]
    simp only [ha, hi]
  · intro h2
    simp only [get_latest_score, parseLatestScore]
    rw [if_pos h2]

/-- Witness for C6 at the two-line ledger `"h\nd,t,5,3"` (score `(5, 3)`)
and at the single-line ledger `"date,time,5,3"` (default `(0, 0)`). -/
theorem claim6_witness :
    (get_latest_score (.ok ⟨"h\nd,t,5,3", 5⟩)).1 = .ok (5, 3) ∧
    (get_latest_score (.ok ⟨"date,time,5,3", 5⟩)).1 = .ok (0, 0) :=
  ⟨(claim6_current_score "h\nd,t,5,3" 5).1 "d" "t" "5" "3" 5 3 (by decide) (by decide)
      (by decide) (by decide),
   (claim6_current_score "date,time,5,3" 5).2 (by decide)⟩

/-- Claim C7: the increment adds one to exactly the named player's
component, leaving the other unchanged; in particular
`applyIncrement (5, 3) PlayerA = (6, 3)` and
`applyIncrement (5, 3) PlayerI = (5, 4)`. -/
theorem claim7_apply_increment (a i : Int) :
    applyIncrement (a, i) 'A' = (a + 1, i) ∧ applyIncrement (a, i) 'I' = (a, i + 1) ∧
    applyIncrement (5, 3) 'A' = (6, 3) ∧ applyIncrement (5, 3) 'I' = (5, 4) := by
  refine ⟨?_, ?_, by decide, by decide⟩ <;> simp [applyIncrement]

/-- Claim C8: a command invocation from any chat other than the authorized
one (or one without a message) produces no effects at all: no reply, no
error message, no remote call, from any of the three handlers. -/
theorem claim8_silent_drop (cfg : Config) (env : RemoteEnv) (clk : Clock) (m : Msg)
    (h : m.hasMessage = false ∨ m.chatId ≠ cfg.authorizedChatId) :
    set_score_command cfg env clk m = [] ∧ my_score_command cfg env clk m = [] ∧
    score_stats_command cfg env m = [] := by
  refine ⟨?_, ?_, ?_⟩
  · unfold set_score_command; rw [if_pos h]
  · unfold my_score_command; rw [if_pos h]
  · unfold score_stats_command; rw [if_pos h]

/-- Witness for C8: a set-score command from chat `"chat2"` while the
authorized chat is `"chat1"` produces the empty trace in all handlers. -/
theorem claim8_witness :
    set_score_command cfg0 (envSame blobHdr) clk0 msgWrongChat = [] ∧
    my_score_command cfg0 (envSame blobHdr) clk0 msgWrongChat = [] ∧
    score_stats_command cfg0 (envSame blobHdr) msgWrongChat = [] :=
  claim8_silent_drop cfg0 (envSame blobHdr) clk0 msgWrongChat (Or.inr (by decide))

/-- Claim C10: `update_csv_file` never propagates an exception: it returns
`(true, none)` exactly when the fetch succeeded, the commit-message fields
existed, and the conditional update succeeded, and whenever it reports
failure it carries an error-message string. -/
theorem claim10_no_exception_escape (env : RemoteEnv) (k : Nat) (line : String) :
    ((update_csv_file env k line).1 = (true, none) ↔
      ∃ b, env.fetch k = .ok b ∧ 3 < (pySplit line ',').length ∧
        env.update (pyStrip b.content ++ "\n" ++ line) b.sha = .ok ()) ∧
    ((update_csv_file env k line).1.1 = false →
      ∃ msg, (update_csv_file env k line).1.2 = some msg) := by
  cases hf : env.fetch k with
  | error f =>
    simp only [update_csv_file, hf]
    refine ⟨?_, fun _ => ⟨excMsg f, rfl⟩⟩
    constructor
    · intro h; simp at h
    · rintro ⟨b, hb, -, -⟩; simp at hb
  | ok b =>
    by_cases hlen : 3 < (pySplit line ',').length
    · cases hu : env.update (pyStrip b.content ++ "\n" ++ line) b.sha with
      | ok u =>
        cases u
        simp only [update_csv_file, hf, if_pos hlen, hu]
        refine ⟨?_, fun hfalse => by simp at hfalse⟩
        constructor
        · intro _; exact ⟨b, rfl, hlen, hu⟩
        · intro _; trivial
      | error f =>
        simp only [update_csv_file, hf, if_pos hlen, hu]
        refine ⟨?_, fun _ => ⟨excMsg f, rfl⟩⟩
        constructor
        · intro h; simp at h
        · rintro ⟨b2, hb2, -, hu2⟩
          simp only [Except.ok.injEq] at hb2
          subst hb2
          rw [hu] at hu2
          simp at hu2
    · simp only [update_csv_file, hf, if_neg hlen]
      refine ⟨?_, fun _ => ⟨"list index out of range", rfl⟩⟩
      constructor
      · intro h; simp at h
      · rintro ⟨b2, hb2, hlen2, -⟩
        simp only [Except.ok.injEq] at hb2
        exact absurd hlen2 hlen

/-- Witness for C10: with a store that serves `" x "` and accepts the
update, appending `"a,b,c,d"` reports `(true, none)`. -/
theorem claim10_witness : (update_csv_file (envSame blobWit) 0 "a,b,c,d").1 = (true, none) :=
  (claim10_no_exception_escape (envSame blobWit) 0 "a,b,c,d").1.mpr
    ⟨blobWit, rfl, by decide, rfl⟩

/-- Claim C2 counterexample: when the ledger blob's entire content is the
single line "date,time,5,3", the increment for PlayerI appends the new
content ending in "<today>,<now>,0,1" (a single-line ledger defaults to
score (0,0)), not "<today>,<now>,5,4", and the confirmation text contains
"0-1" and not "5-4". -/
theorem claim2_counterexample :
    updateContents (my_score_command cfg0 (envSame blobOneLine) clk0 msgIvan) =
      ["date,time,5,3\n" ++ csvLine "2025-01-02" "03:04" "0" "1"] ∧
    ¬ updateContents (my_score_command cfg0 (envSame blobOneLine) clk0 msgIvan) =
      ["date,time,5,3\n" ++ csvLine "2025-01-02" "03:04" "5" "4"] ∧
    ¬ strContains
      (renderMdV2
        ((editTexts (my_score_command cfg0 (envSame blobOneLine) clk0 msgIvan)).getLastD ""))
      "5-4" := by
  decide

/-- Claim C2 amended: a single-line ledger yields the default score (0,0),
so incrementing for PlayerI appends "<today>,<now>,0,1" and the
confirmation contains "0-1"; the claimed "5-4" outcome occurs when the
ledger has a header line above "date,time,5,3". -/
theorem claim2_amended_scenario :
    updateContents (my_score_command cfg0 (envSame blobTwoLine) clk0 msgIvan) =
      ["header\ndate,time,5,3\n" ++ csvLine "2025-01-02" "03:04" "5" "4"] ∧
    strContains
      (renderMdV2
        ((editTexts (my_score_command cfg0 (envSame blobTwoLine) clk0 msgIvan)).getLastD ""))
      "5-4" ∧
    updateContents (my_score_command cfg0 (envSame blobOneLine) clk0 msgIvan) =
      ["date,time,5,3\n" ++ csvLine "2025-01-02" "03:04" "0" "1"] ∧
    strContains
      (renderMdV2
        ((editTexts (my_score_command cfg0 (envSame blobOneLine) clk0 msgIvan)).getLastD ""))
      "0-1" := by
  decide

/-- Claim C3 counterexample: with fetched content "  x" (leading spaces)
the submitted content is "x\nd,t,1,2" — the leading whitespace is NOT
preserved, contradicting newContent = trimTrailingWhitespace(content) +
newline + newLine. -/
theorem claim3_counterexample :
    updateContents ((update_csv_file (envSame blobLead) 0 "d,t,1,2").2) = ["x\nd,t,1,2"] ∧
    ¬ updateContents ((update_csv_file (envSame blobLead) 0 "d,t,1,2").2) =
      [trimTrailingWS "  x" ++ "\n" ++ "d,t,1,2"] := by
  decide

/-- Claim C3 amended: for every fetched content and new line (whose
commit-message fields exist), the append submits exactly
newContent = stripBothEnds(content) + newline + newLine — leading AND
trailing whitespace of the old content are removed — conditioned on the
fetched revision. -/
theorem claim3_append_strips_both_ends (env : RemoteEnv) (k : Nat) (b : Blob) (line : String)
    (hf : env.fetch k = .ok b) (hlen : 3 < (pySplit line ',').length) :
    updateContents ((update_csv_file env k line).2) = [pyStrip b.content ++ "\n" ++ line] ∧
    updateShas ((update_csv_file env k line).2) = [b.sha] := by
  cases hu : env.update (pyStrip b.content ++ "\n" ++ line) b.sha with
  | ok u =>
    cases u
    simp [update_csv_file, hf, hlen, hu, updateContents, updateShas]
  | error f =>
    simp [update_csv_file, hf, hlen, hu, updateContents, updateShas]

/-- Witness for the amended C3: content " x " becomes "x\na,b,c,d",
conditioned on revision 3. -/
theorem claim3_witness :
    updateContents ((update_csv_file (envSame blobWit) 0 "a,b,c,d").2) = ["x\na,b,c,d"] ∧
    updateShas ((update_csv_file (envSame blobWit) 0 "a,b,c,d").2) = [3] :=
  claim3_append_strips_both_ends (envSame blobWit) 0 blobWit "a,b,c,d" rfl (by decide)

/-- Claim C4 counterexample: invoked with the two arguments
["142-91", "junk"], the explicit-set handler does NOT produce a
usage/format error: it ignores the extra argument and attempts the remote
call. -/
theorem claim4_counterexample :
    (set_score_command cfg0 (envSame blobHdr) clk0 msgSet2).any isRemote = true ∧
    updateContents (set_score_command cfg0 (envSame blobHdr) clk0 msgSet2) =
      ["h\nd,t,1,2\n" ++ csvLine "2025-01-02" "03:04" "142" "91"] := by
  decide

/-- Claim C4 amended: the explicit-set command requires at least one
argument whose FIRST argument matches the pattern digits-dash-digits:
"142-91" is accepted yielding (142,91); "abc-91", "142", "142-", "-91" and
zero arguments produce a usage/format error with no remote call; arguments
beyond the first are ignored (the handler behaves exactly as if only the
first were given), not rejected. -/
theorem claim4_validation_amended (env : RemoteEnv) :
    set_score_command cfg0 env clk0 ⟨true, "chat1", "alice", []⟩ =
      [.sendMsg "Usage: `/setscore 142-91`"] ∧
    set_score_command cfg0 env clk0 ⟨true, "chat1", "alice", ["abc-91"]⟩ =
      [.sendMsg "Invalid format\\. Use `142-91`\\."] ∧
    set_score_command cfg0 env clk0 ⟨true, "chat1", "alice", ["142"]⟩ =
      [.sendMsg "Invalid format\\. Use `142-91`\\."] ∧
    set_score_command cfg0 env clk0 ⟨true, "chat1", "alice", ["142-"]⟩ =
      [.sendMsg "Invalid format\\. Use `142-91`\\."] ∧
    set_score_command cfg0 env clk0 ⟨true, "chat1", "alice", ["-91"]⟩ =
      [.sendMsg "Invalid format\\. Use `142-91`\\."] ∧
    set_score_command cfg0 env clk0 ⟨true, "chat1", "alice", ["142-91", "junk"]⟩ =
      set_score_command cfg0 env clk0 ⟨true, "chat1", "alice", ["142-91"]⟩ ∧
    updateContents (set_score_command cfg0 (envSame blobHdr) clk0 msgSet1) =
      ["h\nd,t,1,2\n" ++ csvLine "2025-01-02" "03:04" "142" "91"] := by
  refine ⟨rfl, rfl, rfl, rfl, rfl, rfl, by decide⟩

/-- Claim C1 counterexample: in the increment flow the score is derived
from the content of a first fetch (revision 10) while the update is
conditioned on the revision of a second, separate fetch (revision 20)
performed inside `update_csv_file`; the first fetch's token is never
consumed, so the claimed lifecycle fails. -/
theorem claim1_counterexample :
    fetchShas (my_score_command cfg0 (envTwo blob10 blob20) clk0 msgAlice) = [10, 20] ∧
    updateShas (my_score_command cfg0 (envTwo blob10 blob20) clk0 msgAlice) = [20] ∧
    revisionLifecycleOK (my_score_command cfg0 (envTwo blob10 blob20) clk0 msgAlice) = false := by
  decide

/-- Claim C1 amended: the increment flow performs TWO fetches.  The score
is derived from the first fetch's content, whose revision token is
discarded unused; `update_csv_file` then fetches again, and the single
update request is conditioned on the second fetch's revision and appends to
the second fetch's content.  (Within `update_csv_file` itself the fetched
token is consumed exactly once and never reused.) -/
theorem claim1_two_fetch_lifecycle (cfg : Config) (env : RemoteEnv) (clk : Clock) (m : Msg)
    (p : Char) (b0 b1 : Blob) (a i : Int)
    (hmsg : m.hasMessage = true) (hchat : m.chatId = cfg.authorizedChatId)
    (hp : resolvePlayer cfg m.userId = some p)
    (hf0 : env.fetch 0 = .ok b0)
    (hscore : parseLatestScore b0.content = .ok (a, i))
    (hf1 : env.fetch 1 = .ok b1)
    (hd : ',' ∉ clk.dateStr.data) (ht : ',' ∉ clk.timeStr.data) :
    fetchShas (my_score_command cfg env clk m) = [b0.sha, b1.sha] ∧
    updateShas (my_score_command cfg env clk m) = [b1.sha] ∧
    updateContents (my_score_command cfg env clk m) =
      [pyStrip b1.content ++ "\n" ++
        csvLine clk.dateStr clk.timeStr (intStr (applyIncrement (a, i) p).1)
          (intStr (applyIncrement (a, i) p).2)] := by
  have hguard : ¬ (m.hasMessage = false ∨ m.chatId ≠ cfg.authorizedChatId) := by
    simp [hmsg, hchat]
  have hsplitline : pySplit (csvLine clk.dateStr clk.timeStr
      (intStr (applyIncrement (a, i) p).1) (intStr (applyIncrement (a, i) p).2)) ',' =
      [clk.dateStr, clk.timeStr, intStr (applyIncrement (a, i) p).1,
        intStr (applyIncrement (a, i) p).2] :=
    pySplit_csvLine _ _ _ _ hd ht (comma_not_mem_intStr _) (comma_not_mem_intStr _)
  have hlen : 3 < (pySplit (csvLine clk.dateStr clk.timeStr
      (intStr (applyIncrement (a, i) p).1) (intStr (applyIncrement (a, i) p).2)) ',').length := by
    rw [hsplitline]; simp
  cases hu : env.update
      (pyStrip b1.content ++ "\n" ++ csvLine clk.dateStr clk.timeStr
        (intStr (applyIncrement (a, i) p).1) (intStr (applyIncrement (a, i) p).2)) b1.sha with
  | ok u =>
    cases u
    simp [my_score_command, get_latest_score, update_csv_file, hguard, hp, hf0, hscore,
      hf1, hlen, hu, fetchShas, updateShas, updateContents]
  | error f =>
    simp [my_score_command, get_latest_score, update_csv_file, hguard, hp, hf0, hscore,
      hf1, hlen, hu, fetchShas, updateShas, updateContents]

/-- Witness for the amended C1: the concrete two-revision store of the
counterexample, with score (5,3) for PlayerA becoming 6-3. -/
theorem claim1_witness :
    fetchShas (my_score_command cfg0 (envTwo blob10 blob20) clk0 msgAlice) = [blob10.sha, blob20.sha] ∧
    updateShas (my_score_command cfg0 (envTwo blob10 blob20) clk0 msgAlice) = [blob20.sha] ∧
    updateContents (my_score_command cfg0 (envTwo blob10 blob20) clk0 msgAlice) =
      [pyStrip blob20.content ++ "\n" ++
        csvLine clk0.dateStr clk0.timeStr (intStr (applyIncrement (5, 3) 'A').1)
          (intStr (applyIncrement (5, 3) 'A').2)] :=
  claim1_two_fetch_lifecycle cfg0 (envTwo blob10 blob20) clk0 msgAlice 'A' blob10 blob20 5 3
    rfl rfl rfl rfl (by decide) rfl (by decide) (by decide)

theorem get_latest_trace_remote (fr : Except PyExn Blob) :
    ∀ e ∈ (get_latest_score fr).2, isRemote e = true := by
  intro e he
  cases fr with
  | error f => simp [get_latest_score] at he
  | ok b => simp [get_latest_score] at he; subst he; rfl

theorem pin_not_msgEvent : ∀ e ∈ [Effect.pinMsg 0], isMsgEvent e = false := by
  intro e he; simp at he; subst he; rfl

theorem set_score_protocol (cfg : Config) (env : RemoteEnv) (clk : Clock) (m : Msg) :
    placeholderProtocolOK (set_score_command cfg env clk m) = true := by
  simp only [set_score_command]
  split
  · rfl
  · split
    · rfl
    · split
      · rfl
      · split
        · split
          · refine protocol_shape _ _ 0 _ [Effect.pinMsg 0] ?_ pin_not_msgEvent
            exact fun e he => send_false_of_remote e (update_trace_remote env 0 _ e he)
          · refine protocol_shape _ _ 0 _ [] ?_ (by intro e he; simp at he)
            exact fun e he => send_false_of_remote e (update_trace_remote env 0 _ e he)
        · rfl

theorem my_score_protocol (cfg : Config) (env : RemoteEnv) (clk : Clock) (m : Msg) :
    placeholderProtocolOK (my_score_command cfg env clk m) = true := by
  simp only [my_score_command]
  split
  · rfl
  · split
    · rfl
    · split
      · refine protocol_shape _ _ 0 _ [] ?_ (by intro e he; simp at he)
        exact fun e he => send_false_of_remote e (get_latest_trace_remote _ e he)
      · split
        · refine protocol_shape _ _ 0 _ [Effect.pinMsg 0] ?_ pin_not_msgEvent
          intro e he
          rcases List.mem_append.mp he with h12 | h4
          · rcases List.mem_append.mp h12 with h1 | h3
            · exact send_false_of_remote e (get_latest_trace_remote _ e h1)
            · simp at h3; subst h3; rfl
          · exact send_false_of_remote e (update_trace_remote env 1 _ e h4)
        · refine protocol_shape _ _ 0 _ [] ?_ (by intro e he; simp at he)
          intro e he
          rcases List.mem_append.mp he with h12 | h4
          · rcases List.mem_append.mp h12 with h1 | h3
            · exact send_false_of_remote e (get_latest_trace_remote _ e h1)
            · simp at h3; subst h3; rfl
          · exact send_false_of_remote e (update_trace_remote env 1 _ e h4)

theorem stats_trace_shape (cfg : Config) (env : RemoteEnv) (m : Msg) (b : Blob)
    (hmsg : m.hasMessage = true) (hchat : m.chatId = cfg.authorizedChatId)
    (hf : env.fetch 0 = .ok b) :
    ∃ txt, score_stats_command cfg env m = [.fetchEv b.content b.sha, .sendMsg txt] := by
  have hguard : ¬ (m.hasMessage = false ∨ m.chatId ≠ cfg.authorizedChatId) := by
    simp [hmsg, hchat]
  cases hp : parseLatestScore b.content with
  | error e =>
    refine ⟨"An error occurred while fetching stats: `" ++ pyReplace (pyStr e) '.' "\\." ++ "`", ?_⟩
    simp [score_stats_command, get_latest_score, hguard, hf, hp]
  | ok cur =>
    by_cases htot : cur.1 + cur.2 = 0
    · refine ⟨"No scores recorded yet\\.", ?_⟩
      simp [score_stats_command, get_latest_score, hguard, hf, hp, htot]
    · refine ⟨statsText cur.1 cur.2, ?_⟩
      simp [score_stats_command, get_latest_score, hguard, hf, hp, htot]

/-- Claim C5 counterexample: the statistics command performs its remote
fetch with no prior placeholder message and delivers its result as a fresh
reply, not an edit, so the claimed protocol fails for it. -/
theorem claim5_counterexample :
    (score_stats_command cfg0 (envSame blobStats) msgAlice).any isRemote = true ∧
    placeholderProtocolOK (score_stats_command cfg0 (envSame blobStats) msgAlice) = false := by
  decide

/-- Claim C5 amended: the two score-mutating commands (explicit set and
increment) always send the processing placeholder before any remote call,
send no second message, and deliver the outcome by editing that message;
the statistics command instead performs its fetch first, with no
placeholder, and delivers its outcome as a new message. -/
theorem claim5_placeholder_protocol :
    (∀ (cfg : Config) (env : RemoteEnv) (clk : Clock) (m : Msg),
      placeholderProtocolOK (set_score_command cfg env clk m) = true) ∧
    (∀ (cfg : Config) (env : RemoteEnv) (clk : Clock) (m : Msg),
      placeholderProtocolOK (my_score_command cfg env clk m) = true) ∧
    (∀ (cfg : Config) (env : RemoteEnv) (m : Msg) (b : Blob),
      m.hasMessage = true → m.chatId = cfg.authorizedChatId → env.fetch 0 = .ok b →
      ∃ txt, score_stats_command cfg env m = [.fetchEv b.content b.sha, .sendMsg txt]) :=
  ⟨set_score_protocol, my_score_protocol, stats_trace_shape⟩

/-- Witness for the amended C5 at concrete stores and messages. -/
theorem claim5_witness :
    placeholderProtocolOK (set_score_command cfg0 (envSame blobHdr) clk0 msgSet1) = true ∧
    placeholderProtocolOK (my_score_command cfg0 (envSame blobTwoLine) clk0 msgIvan) = true ∧
    (∃ txt, score_stats_command cfg0 (envSame blobStats) msgAlice =
      [.fetchEv blobStats.content blobStats.sha, .sendMsg txt]) :=
  ⟨claim5_placeholder_protocol.1 cfg0 (envSame blobHdr) clk0 msgSet1,
   claim5_placeholder_protocol.2.1 cfg0 (envSame blobTwoLine) clk0 msgIvan,
   claim5_placeholder_protocol.2.2 cfg0 (envSame blobStats) msgAlice blobStats (by rfl) (by rfl)
     (by rfl)⟩

theorem strContains_appendl (s t u : String) (h : strContains s u) :
    strContains (s ++ t) u := by
  unfold strContains at h ⊢
  rw [String.data_append]
  exact h.trans ⟨[], t.data, by simp⟩

theorem strContains_suffix (s u : String) : strContains (s ++ u) u := by
  unfold strContains
  exact ⟨s.data, [], by simp [String.data_append]⟩

theorem statsText_contains_inf (a : Int) : strContains (statsText a 0) "∞" := by
  simp only [statsText]
  rw [if_neg (by decide : ¬ ((0:Int) < 0))]
  apply strContains_appendl
  apply strContains_appendl
  apply strContains_appendl
  apply strContains_appendl
  exact strContains_suffix _ _

/-- Claim C9: the statistics command reports "no scores recorded yet" when
the total is zero; on score (7,3) its rendered message contains the ratio
"2.33:1" and the shares "70.0%" and "30.0%"; and when the I-score is zero
with a positive A-score it reports the infinite-ratio marker instead of a
numeric ratio. -/
theorem claim9_statistics :
    (∀ (cfg : Config) (env : RemoteEnv) (m : Msg) (b : Blob) (a i : Int),
      m.hasMessage = true → m.chatId = cfg.authorizedChatId → env.fetch 0 = .ok b →
      parseLatestScore b.content = .ok (a, i) → a + i = 0 →
      score_stats_command cfg env m =
        [.fetchEv b.content b.sha, .sendMsg "No scores recorded yet\\."]) ∧
    (score_stats_command cfg0 (envSame blobStats) msgAlice =
        [.fetchEv blobStats.content blobStats.sha, .sendMsg (statsText 7 3)] ∧
      strContains (renderMdV2 (statsText 7 3)) "2.33:1" ∧
      strContains (renderMdV2 (statsText 7 3)) "70.0%" ∧
      strContains (renderMdV2 (statsText 7 3)) "30.0%") ∧
    (∀ (cfg : Config) (env : RemoteEnv) (m : Msg) (b : Blob) (a : Int),
      m.hasMessage = true → m.chatId = cfg.authorizedChatId → env.fetch 0 = .ok b →
      parseLatestScore b.content = .ok (a, 0) → 0 < a →
      score_stats_command cfg env m = [.fetchEv b.content b.sha, .sendMsg (statsText a 0)] ∧
      strContains (statsText a 0) "∞") := by
  refine ⟨?_, by decide, ?_⟩
  · intro cfg env m b a i hmsg hchat hf hp htot
    have hguard : ¬ (m.hasMessage = false ∨ m.chatId ≠ cfg.authorizedChatId) := by
      simp [hmsg, hchat]
    simp [score_stats_command, get_latest_score, hguard, hf, hp, htot]
  · intro cfg env m b a hmsg hchat hf hp ha
    have hguard : ¬ (m.hasMessage = false ∨ m.chatId ≠ cfg.authorizedChatId) := by
      simp [hmsg, hchat]
    have htot : ¬ (a = 0) := by omega
    exact ⟨by simp [score_stats_command, get_latest_score, hguard, hf, hp, htot],
      statsText_contains_inf a⟩

/-- Witness for C9: the empty ledger reports no scores; the ledger ending
in score (4,0) reports the infinity marker. -/
theorem claim9_witness :
    score_stats_command cfg0 (envSame blobEmpty) msgAlice =
      [.fetchEv blobEmpty.content blobEmpty.sha, .sendMsg "No scores recorded yet\\."] ∧
    (score_stats_command cfg0 (envSame blobInf) msgAlice =
        [.fetchEv blobInf.content blobInf.sha, .sendMsg (statsText 4 0)] ∧
      strContains (statsText 4 0) "∞") :=
  ⟨claim9_statistics.1 cfg0 (envSame blobEmpty) msgAlice blobEmpty 0 0 (by rfl) (by rfl)
      (by rfl) (by decide) (by decide),
   claim9_statistics.2.2 cfg0 (envSame blobInf) msgAlice blobInf 4 (by rfl) (by rfl)
      (by rfl) (by decide) (by decide)⟩

/-- Witness for the amended C4 at a concrete store: zero arguments produce
exactly the usage message. -/
theorem claim4_witness :
    set_score_command cfg0 (envSame blobHdr) clk0 ⟨true, "chat1", "alice", []⟩ =
      [.sendMsg "Usage: `/setscore 142-91`"] :=
  (claim4_validation_amended (envSame blobHdr)).1

/-- Witness for C7 at the score pair (5,3). -/
theorem claim7_witness :
    applyIncrement ((5 : Int), (3 : Int)) 'A' = (5 + 1, 3) ∧
    applyIncrement ((5 : Int), (3 : Int)) 'I' = (5, 3 + 1) ∧
    applyIncrement (5, 3) 'A' = (6, 3) ∧ applyIncrement (5, 3) 'I' = (5, 4) :=
  claim7_apply_increment 5 3
